import Mathlib

/-!
Shallow embedding of `scripts/seed_reminders.py`: a command-line utility that
parses five optional flags, assembles a JSON payload, echoes and runs a fixed
external command (`npx convex run internal.reminders.seedRemindersTestData`)
as a child process, and reports the child's exit status.

The embedding models the script's `main` function together with the behaviour
of the Python library facilities it relies on (`int`, `argparse.ArgumentParser`
with the five `add_argument` calls of lines 26-30, `json.dumps`,
`subprocess.run(check=True)`, and CPython's handling of an uncaught
exception).  Effects are modelled as an explicit trace of events (stdout
lines, stderr lines, child-process invocations) plus the process exit code;
the child process is an oracle (`ChildBehavior`) saying whether the launch
fails or the child exits with a given code.
-/

set_option autoImplicit false

namespace SeedReminders

/-- Code points Python's `int(str)` strips as whitespace around the number.
The list is the exact set for which CPython 3.11 evaluates
`int(chr(c) + "5" + chr(c))` to 5, enumerated over the whole code space. -/
def pySpaceCodes : List Nat :=
  [9, 10, 11, 12, 13, 32, 133, 160, 5760, 8192, 8193, 8194, 8195, 8196, 8197,
   8198, 8199, 8200, 8201, 8202, 8232, 8233, 8239, 8287, 12288]

/-- Whitespace stripped by Python's `int(str)` conversion. -/
def isPySpace (c : Char) : Bool :=
  pySpaceCodes.contains c.toNat

/-- Zero code point of every run of ten consecutive Unicode decimal digits
(category Nd) that Python's `int(str)` accepts.  The list is the exact set of
runs for which CPython 3.11 (Unicode 14.0) converts the character: every
accepted digit sits in one of these runs at offset equal to its value. -/
def pyDigitZeros : List Nat :=
  [48, 1632, 1776, 1984, 2406, 2534, 2662, 2790, 2918, 3046, 3174, 3302,
   3430, 3558, 3664, 3792, 3872, 4160, 4240, 6112, 6160, 6470, 6608, 6784,
   6800, 6992, 7088, 7232, 7248, 42528, 43216, 43264, 43472, 43504, 43600,
   44016, 65296, 66720, 68912, 69734, 69872, 69942, 70096, 70384, 70736,
   70864, 71248, 71360, 71472, 71904, 72016, 72784, 73040, 73120, 92768,
   92864, 93008, 120782, 120792, 120802, 120812, 120822, 123200, 123632,
   125264, 130032]

/-- Decimal value of a character Python's `int` accepts as a digit, `none`
for every other character. -/
def pyDigitVal (c : Char) : Option Nat :=
  (pyDigitZeros.find? (fun z => z ≤ c.toNat && c.toNat ≤ z + 9)).map
    (fun z => c.toNat - z)

/-- Digit tail of a Python integer literal: after the first digit, digits
with single underscores allowed only between digits (as accepted by
`int`). -/
def pyDigitTail : List Char → Nat → Option Nat
  | [], acc => some acc
  | '_' :: c :: rest, acc =>
    (match pyDigitVal c with
     | some d => pyDigitTail rest (acc * 10 + d)
     | none => none)
  | ['_'], _ => none
  | c :: rest, acc =>
    (match pyDigitVal c with
     | some d => pyDigitTail rest (acc * 10 + d)
     | none => none)

/-- Nonempty digit run with internal underscores, the body of a Python
base-10 integer literal. -/
def pyDigits : List Char → Option Nat
  | [] => none
  | c :: rest =>
    (match pyDigitVal c with
     | some d => pyDigitTail rest d
     | none => none)

/-- Python's `int(s)` for base 10: strip surrounding whitespace (Unicode
set above), an optional single ASCII sign (CPython accepts no other sign
characters), then Unicode decimal digits with internal underscores.
Returns `none` where `int` raises `ValueError`. -/
def pyInt (s : String) : Option Int :=
  let cs := ((s.toList.dropWhile isPySpace).reverse.dropWhile isPySpace).reverse
  match cs with
  | '-' :: rest => (pyDigits rest).map (fun n => -(n : Int))
  | '+' :: rest => (pyDigits rest).map (fun n => (n : Int))
  | _ => (pyDigits cs).map (fun n => (n : Int))

/-- The five destination attributes of the script's argparse flags
(lines 26-30 of the source). -/
inductive Flag where
  | count1h
  | count24h
  | minutes1h
  | minutes24h
  | teamName
deriving DecidableEq, Repr

/-- The parsed-argument namespace: one field per argparse destination, with
the defaults of lines 26-30. -/
structure Args where
  count_1h : Int
  count_24h : Int
  minutes_1h : Int
  minutes_24h : Int
  team_name : String
deriving DecidableEq, Repr

/-- Argparse defaults: 2, 2, 65, `24 * 60 + 10`, "Seed Team". -/
def defaultArgs : Args :=
  { count_1h := 2, count_24h := 2, minutes_1h := 65,
    minutes_24h := 24 * 60 + 10, team_name := "Seed Team" }

/-- An option known to the parser: the auto-added help option or one of the
five flags. -/
inductive Opt where
  | help
  | flag (f : Flag)
deriving DecidableEq, Repr

/-- The long option strings the parser knows, in declaration order:
the auto-added `--help` and the five flags of lines 26-30. -/
def longOpts : List (String × Opt) :=
  [("--help", Opt.help),
   ("--count-1h", Opt.flag Flag.count1h),
   ("--count-24h", Opt.flag Flag.count24h),
   ("--minutes-1h", Opt.flag Flag.minutes1h),
   ("--minutes-24h", Opt.flag Flag.minutes24h),
   ("--team-name", Opt.flag Flag.teamName)]

/-- Fractional form `\d*[.]\d+` of argparse's negative-number matcher. -/
def decimalTail : List Char → Bool
  | [] => false
  | '.' :: fs => !fs.isEmpty && fs.all Char.isDigit
  | c :: cs => c.isDigit && decimalTail cs

/-- Argparse's `_negative_number_matcher` on the characters after a leading
minus sign: all digits, or a decimal fraction. -/
def isNegNumberToken (t : String) : Bool :=
  match t.toList with
  | '-' :: cs => (!cs.isEmpty && cs.all Char.isDigit) || decimalTail cs
  | _ => false

/-- A token that argparse refuses to consume as an option's value: it starts
with `-`, is not the bare `-`, and does not look like a negative number
(the parser defines no options starting with a digit). -/
def looksLikeOption (t : String) : Bool :=
  match t.toList with
  | [] => false
  | ['-'] => false
  | '-' :: _ => !isNegNumberToken t
  | _ => false

/-- Split a character list at its first `=`, returning the parts before and
after it; `none` when there is no `=`.  Models argparse's
`arg.split("=", 1)` treatment of `--flag=value` tokens. -/
def splitFirstEq : List Char → Option (List Char × List Char)
  | [] => none
  | c :: cs =>
    if c = '=' then some ([], cs)
    else (splitFirstEq cs).map (fun p => (c :: p.1, p.2))

/-- Result of matching a token against the known long options: exact match
first, else unique-prefix abbreviation, else ambiguous or unknown. -/
inductive MatchRes where
  | found (o : Opt)
  | ambiguousOpt
  | noMatch
deriving DecidableEq, Repr

/-- Boolean test that the first character list starts the second. -/
def isPrefixList : List Char → List Char → Bool
  | [], _ => true
  | _ :: _, [] => false
  | a :: as, b :: bs => a = b && isPrefixList as bs

/-- Argparse long-option lookup with `allow_abbrev` (the default): an exact
option string wins; otherwise a token that abbreviates exactly one known long
option selects it, one abbreviating several is ambiguous, and anything else
is unknown. -/
def matchLong (t : String) : MatchRes :=
  match longOpts.find? (fun p => p.1 == t) with
  | some p => MatchRes.found p.2
  | none =>
    match longOpts.filter (fun p => isPrefixList t.toList p.1.toList) with
    | [] => MatchRes.noMatch
    | [p] => MatchRes.found p.2
    | _ => MatchRes.ambiguousOpt

/-- How the parse loop treats one token. -/
inductive TokenClass where
  | helpTok
  | needsValue (f : Flag)
  | withValue (f : Flag) (v : String)
  | dashDash
  | extraTok
  | errTok (msg : String)
deriving DecidableEq, Repr

/-- Immediate argparse error text for a help option given an explicit
argument, as in `--help=x` or `-hx`. -/
def helpExplicitArgMsg : String :=
  "argument -h/--help: ignored explicit argument"

/-- Immediate argparse error text for an abbreviation matching several
options. -/
def ambiguousOptionMsg (t : String) : String :=
  "ambiguous option: " ++ t

/-- Classify one command-line token the way `_parse_known_args` treats it:
`-h` and `--help` (or an unambiguous abbreviation) trigger help; a known long
flag expects a value in the next token unless the token carries `=value`;
`--`, unknown options, bare words and negative numbers become extras
(reported as unrecognized at the end); ambiguous abbreviations and explicit
arguments to the help option are immediate errors. -/
def classifyChars : List Char → TokenClass
  | ['-', 'h'] => TokenClass.helpTok
  | ['-', '-'] => TokenClass.dashDash
  | '-' :: 'h' :: _ => TokenClass.errTok helpExplicitArgMsg
  | '-' :: '-' :: cs =>
    (match splitFirstEq cs with
     | some (front, val) =>
       (match matchLong (String.mk ('-' :: '-' :: front)) with
        | MatchRes.found Opt.help => TokenClass.errTok helpExplicitArgMsg
        | MatchRes.found (Opt.flag f) => TokenClass.withValue f (String.mk val)
        | MatchRes.ambiguousOpt =>
          TokenClass.errTok (ambiguousOptionMsg (String.mk ('-' :: '-' :: front)))
        | MatchRes.noMatch => TokenClass.extraTok)
     | none =>
       (match matchLong (String.mk ('-' :: '-' :: cs)) with
        | MatchRes.found Opt.help => TokenClass.helpTok
        | MatchRes.found (Opt.flag f) => TokenClass.needsValue f
        | MatchRes.ambiguousOpt =>
          TokenClass.errTok (ambiguousOptionMsg (String.mk ('-' :: '-' :: cs)))
        | MatchRes.noMatch => TokenClass.extraTok))
  | _ => TokenClass.extraTok

/-- Token classification on strings. -/
def classify (t : String) : TokenClass :=
  classifyChars t.toList

/-- Display name of a flag's option string, for error messages. -/
def flagName : Flag → String
  | Flag.count1h => "--count-1h"
  | Flag.count24h => "--count-24h"
  | Flag.minutes1h => "--minutes-1h"
  | Flag.minutes24h => "--minutes-24h"
  | Flag.teamName => "--team-name"

/-- Argparse error text for an option whose required value is missing. -/
def expectedOneArgMsg (f : Flag) : String :=
  "argument " ++ flagName f ++ ": expected one argument"

/-- Argparse error text for a value rejected by the `int` type converter. -/
def invalidIntMsg (f : Flag) (v : String) : String :=
  "argument " ++ flagName f ++ ": invalid int value: " ++ v

/-- Store a flag's value into the namespace, applying the `type=int`
conversion of lines 26-29 (the team name of line 30 is stored verbatim). -/
def setFlag (a : Args) (f : Flag) (v : String) : Except String Args :=
  match f with
  | Flag.count1h =>
    match pyInt v with
    | some n => Except.ok { a with count_1h := n }
    | none => Except.error (invalidIntMsg f v)
  | Flag.count24h =>
    match pyInt v with
    | some n => Except.ok { a with count_24h := n }
    | none => Except.error (invalidIntMsg f v)
  | Flag.minutes1h =>
    match pyInt v with
    | some n => Except.ok { a with minutes_1h := n }
    | none => Except.error (invalidIntMsg f v)
  | Flag.minutes24h =>
    match pyInt v with
    | some n => Except.ok { a with minutes_24h := n }
    | none => Except.error (invalidIntMsg f v)
  | Flag.teamName => Except.ok { a with team_name := v }

/-- Outcome of `parser.parse_args()`: a parsed namespace, a help exit, or a
usage error (argparse `error`, which prints usage plus the message to stderr
and exits with status 2). -/
inductive ParseOutcome where
  | ok (a : Args)
  | help
  | usageError (msg : String)
deriving DecidableEq, Repr

/-- Argparse final error for leftover tokens the parser did not consume. -/
def unrecognizedMsg (extras : List String) : String :=
  "unrecognized arguments: " ++ String.intercalate " " extras

/-- The argparse parse loop over the token list, threading the namespace and
the accumulated extras (kept in reverse).  Tokens are handled left to right:
a help token exits immediately with help; immediate errors (ambiguous
abbreviation, explicit argument to help, missing or type-invalid option
value) exit with a usage error; extras are collected and reported as
unrecognized once the list is exhausted; from a `--` on, everything that is
left is unconsumed (the parser declares no positionals). -/
def parseTokens : List String → Args → List String → ParseOutcome
  | [], a, extras =>
    if extras.isEmpty then ParseOutcome.ok a
    else ParseOutcome.usageError (unrecognizedMsg extras.reverse)
  | t :: rest, a, extras =>
    match classify t with
    | TokenClass.helpTok => ParseOutcome.help
    | TokenClass.errTok m => ParseOutcome.usageError m
    | TokenClass.dashDash =>
      ParseOutcome.usageError (unrecognizedMsg (extras.reverse ++ t :: rest))
    | TokenClass.extraTok => parseTokens rest a (t :: extras)
    | TokenClass.withValue f v =>
      (match setFlag a f v with
       | Except.ok a2 => parseTokens rest a2 extras
       | Except.error m => ParseOutcome.usageError m)
    | TokenClass.needsValue f =>
      (match rest with
       | [] => ParseOutcome.usageError (expectedOneArgMsg f)
       | v :: rest2 =>
         if looksLikeOption v then ParseOutcome.usageError (expectedOneArgMsg f)
         else
           match setFlag a f v with
           | Except.ok a2 => parseTokens rest2 a2 extras
           | Except.error m => ParseOutcome.usageError m)

/-- `parser.parse_args()` on the given argument vector (`sys.argv[1:]`). -/
def parseArgs (argv : List String) : ParseOutcome :=
  parseTokens argv defaultArgs []

/-- A JSON value as it occurs in the script's payload dict: an integer or a
string. -/
inductive JVal where
  | int (n : Int)
  | str (s : String)
deriving DecidableEq, Repr

/-- Lowercase hexadecimal digit. -/
def hexDigitChar (n : Nat) : Char :=
  if n < 10 then Char.ofNat (48 + n) else Char.ofNat (87 + n)

/-- Four lowercase hex digits, as produced by Python's `"\\u{0:04x}"`. -/
def hex4 (n : Nat) : String :=
  String.mk [hexDigitChar (n / 4096 % 16), hexDigitChar (n / 256 % 16),
             hexDigitChar (n / 16 % 16), hexDigitChar (n % 16)]

/-- The `\uXXXX` escape `json.dumps` (with its default `ensure_ascii=True`)
emits for a code point, using a surrogate pair above `0xffff`. -/
def uEscape (n : Nat) : String :=
  if n < 65536 then "\\u" ++ hex4 n
  else
    "\\u" ++ hex4 (55296 + (n - 65536) / 1024) ++
    "\\u" ++ hex4 (56320 + (n - 65536) % 1024)

/-- Escape one character of a JSON string the way `json.dumps` does by
default: backslash and double quote get a backslash, the five control
characters with short escapes use them, every other character outside
printable ASCII (below space or above tilde) becomes `\uXXXX`, and printable
ASCII passes through. -/
def jsonEscapeChar (c : Char) : String :=
  if c = '"' then "\\\""
  else if c = '\\' then "\\\\"
  else if c = '\x08' then "\\b"
  else if c = '\t' then "\\t"
  else if c = '\n' then "\\n"
  else if c = '\x0c' then "\\f"
  else if c = '\x0d' then "\\r"
  else if 32 ≤ c.toNat && c.toNat ≤ 126 then String.singleton c
  else uEscape c.toNat

/-- A JSON string literal: quotes around the escaped characters. -/
def jsonString (s : String) : String :=
  "\"" ++ String.join (s.toList.map jsonEscapeChar) ++ "\""

/-- Serialization of one JSON value (Python's `repr` for ints). -/
def renderJVal : JVal → String
  | JVal.int n => toString n
  | JVal.str s => jsonString s

/-- The `key: value` members of a JSON object, joined by `", "`, matching
`json.dumps`'s default separators. -/
def renderFields : List (String × JVal) → String
  | [] => ""
  | [p] => jsonString p.1 ++ ": " ++ renderJVal p.2
  | p :: rest => jsonString p.1 ++ ": " ++ renderJVal p.2 ++ ", " ++ renderFields rest

/-- `json.dumps` of a flat string-keyed dict (insertion order preserved,
default separators): braces around the joined members. -/
def renderJObj (fs : List (String × JVal)) : String :=
  "\x7b" ++ renderFields fs ++ "\x7d"

/-- The payload dict of lines 33-39: five fixed camelCase keys in insertion
order, each holding the corresponding parsed argument value unchanged. -/
def payload (a : Args) : List (String × JVal) :=
  [("count1h", JVal.int a.count_1h),
   ("count24h", JVal.int a.count_24h),
   ("minutesFromNowFor1h", JVal.int a.minutes_1h),
   ("minutesFromNowFor24h", JVal.int a.minutes_24h),
   ("reuseTeamName", JVal.str a.team_name)]

/-- `json.dumps(payload)` of line 46. -/
def dumpsPayload (a : Args) : String :=
  renderJObj (payload a)

/-- The command list of lines 41-47: fixed tool name, fixed subcommand,
fixed fully-qualified action identifier, serialized payload as the final
positional argument. -/
def cmd (p : String) : List String :=
  ["npx", "convex", "run", "internal.reminders.seedRemindersTestData", p]

/-- One observable effect of a run: a stdout line, a stderr line, or an
invocation of a child process with an argument vector. -/
inductive Event where
  | out (line : String)
  | err (line : String)
  | spawn (c : List String)
deriving DecidableEq, Repr

/-- Observable outcome of one run of the script: the ordered effect trace
and the value the process exits with (the argument of `SystemExit` at line
59, or argparse's own exit status). -/
structure RunResult where
  events : List Event
  exitCode : Int
deriving DecidableEq, Repr

/-- Behaviour of the external `npx` child process, which is outside the
program: either the executable cannot be launched (`FileNotFoundError`), or
the child runs and finishes with the given return code. -/
inductive ChildBehavior where
  | launchFailure
  | exits (code : Int)
deriving DecidableEq, Repr

/-- Stand-in for the argparse help text printed to stdout by `-h`/`--help`
(the exact wording is argparse's own and is not modelled further). -/
def helpText : String :=
  "usage: seed_reminders.py [-h] [--count-1h COUNT_1H] [--count-24h COUNT_24H] [--minutes-1h MINUTES_1H] [--minutes-24h MINUTES_24H] [--team-name TEAM_NAME]"

/-- Stderr text of an argparse usage error: usage line plus the error
message, after which argparse exits with status 2. -/
def usageErrorText (m : String) : String :=
  helpText ++ " seed_reminders.py: error: " ++ m

/-- Final line of the CPython traceback printed to stderr when the
`FileNotFoundError` raised by `subprocess.run` for a missing executable
propagates out of `main` uncaught (the `except` clause of line 53 only
catches `CalledProcessError`); CPython then exits with status 1. -/
def fnfTraceback : String :=
  "FileNotFoundError: [Errno 2] No such file or directory: 'npx'"

/-- The script's `main` (lines 24-55) plus the `__main__` guard (lines
58-59), as a function from the argument vector and the child-process
behaviour to the observable run result.  Sequencing follows the source: a
successful parse prints the assembled command line (line 49), invokes the
child (line 51), and then returns 0 on child success, or prints the
diagnostic of line 54 to stderr and returns the child's return code; an
unlaunchable child raises out of the program. -/
def main (argv : List String) (child : ChildBehavior) : RunResult :=
  match parseArgs argv with
  | ParseOutcome.help => { events := [Event.out helpText], exitCode := 0 }
  | ParseOutcome.usageError m =>
    { events := [Event.err (usageErrorText m)], exitCode := 2 }
  | ParseOutcome.ok a =>
    let c := cmd (dumpsPayload a)
    let pre := [Event.out ("Running: " ++ String.intercalate " " c), Event.spawn c]
    match child with
    | ChildBehavior.launchFailure =>
      { events := pre ++ [Event.err fnfTraceback], exitCode := 1 }
    | ChildBehavior.exits n =>
      if n = 0 then { events := pre, exitCode := 0 }
      else
        { events := pre ++ [Event.err ("Seed failed (exit " ++ toString n ++ ").")],
          exitCode := n }

/-- The child-process invocations contained in a run's trace, in order. -/
def spawnsOf (r : RunResult) : List (List String) :=
  r.events.filterMap fun e =>
    match e with
    | Event.spawn c => some c
    | _ => none

/-- The stderr lines contained in a run's trace, in order. -/
def errsOf (r : RunResult) : List String :=
  r.events.filterMap fun e =>
    match e with
    | Event.err m => some m
    | _ => none

/-- Helper: after a successful parse the run's trace is the echo line, the
child invocation, and then whatever the child outcome adds. -/
theorem main_ok_events (argv : List String) (a : Args) (child : ChildBehavior)
    (h : parseArgs argv = ParseOutcome.ok a) :
    (main argv child).events =
      [Event.out ("Running: " ++ String.intercalate " " (cmd (dumpsPayload a))),
       Event.spawn (cmd (dumpsPayload a))] ++
      (match child with
       | ChildBehavior.launchFailure => [Event.err fnfTraceback]
       | ChildBehavior.exits n =>
         if n = 0 then []
         else [Event.err ("Seed failed (exit " ++ toString n ++ ").")]) := by
  cases child with
  | launchFailure => simp [main, h]
  | exits n =>
    by_cases hn : n = 0 <;> simp [main, h, hn]

/-- Helper: after a successful parse the run's exit code is 0 for a child
exit of 0, the child's code otherwise, and 1 for a launch failure. -/
theorem main_ok_exitCode (argv : List String) (a : Args) (child : ChildBehavior)
    (h : parseArgs argv = ParseOutcome.ok a) :
    (main argv child).exitCode =
      (match child with
       | ChildBehavior.launchFailure => 1
       | ChildBehavior.exits n => n) := by
  cases child with
  | launchFailure => simp [main, h]
  | exits n =>
    by_cases hn : n = 0 <;> simp [main, h, hn]

/-- Helper: after a successful parse the trace holds exactly one child
invocation, carrying the assembled command. -/
theorem spawnsOf_main_ok (argv : List String) (a : Args) (child : ChildBehavior)
    (h : parseArgs argv = ParseOutcome.ok a) :
    spawnsOf (main argv child) = [cmd (dumpsPayload a)] := by
  rw [spawnsOf, main_ok_events argv a child h]
  cases child with
  | launchFailure => simp [List.filterMap]
  | exits n =>
    by_cases hn : n = 0 <;> simp [hn, List.filterMap]

/-- C1: for every invocation whose argument parse succeeds, the constructed
payload maps each parsed argument value to its field unchanged under the
fixed kebab-case-to-camelCase key mapping (`--count-1h` to `count1h`,
`--count-24h` to `count24h`, `--minutes-1h` to `minutesFromNowFor1h`,
`--minutes-24h` to `minutesFromNowFor24h`, `--team-name` to
`reuseTeamName`), and that payload is what the child invocation carries. -/
theorem payload_identity (argv : List String) (a : Args) (child : ChildBehavior)
    (h : parseArgs argv = ParseOutcome.ok a) :
    payload a =
      [("count1h", JVal.int a.count_1h),
       ("count24h", JVal.int a.count_24h),
       ("minutesFromNowFor1h", JVal.int a.minutes_1h),
       ("minutesFromNowFor24h", JVal.int a.minutes_24h),
       ("reuseTeamName", JVal.str a.team_name)] ∧
    spawnsOf (main argv child) = [cmd (renderJObj (payload a))] := by
  exact ⟨rfl, spawnsOf_main_ok argv a child h⟩

/-- C1 witness: a concrete invocation parsing `--count-1h=3`. -/
theorem payload_identity_witness :
    payload { defaultArgs with count_1h := 3 } =
      [("count1h", JVal.int 3),
       ("count24h", JVal.int 2),
       ("minutesFromNowFor1h", JVal.int 65),
       ("minutesFromNowFor24h", JVal.int 1450),
       ("reuseTeamName", JVal.str "Seed Team")] ∧
    spawnsOf (main ["--count-1h=3"] (ChildBehavior.exits 0)) =
      [cmd (renderJObj (payload { defaultArgs with count_1h := 3 }))] :=
  payload_identity ["--count-1h=3"] { defaultArgs with count_1h := 3 }
    (ChildBehavior.exits 0) (by decide)

/-- C2: when the parse succeeds and the child runs but exits with a non-zero
code, the run writes exactly one stderr diagnostic, that diagnostic contains
the child's code, the program's exit code equals the child's, and only one
child invocation ever happens (no retry). -/
theorem nonzero_child_exit_propagated (argv : List String) (a : Args) (n : Int)
    (h : parseArgs argv = ParseOutcome.ok a) (hn : n ≠ 0) :
    errsOf (main argv (ChildBehavior.exits n)) =
      ["Seed failed (exit " ++ toString n ++ ")."] ∧
    (∃ s t, "Seed failed (exit " ++ toString n ++ ")." = s ++ (toString n ++ t)) ∧
    (main argv (ChildBehavior.exits n)).exitCode = n ∧
    (spawnsOf (main argv (ChildBehavior.exits n))).length = 1 := by
  refine ⟨?_, ⟨"Seed failed (exit ", ").", by rw [String.append_assoc]⟩, ?_, ?_⟩
  · rw [errsOf, main_ok_events argv a _ h]
    simp [hn, List.filterMap]
  · rw [main_ok_exitCode argv a _ h]
  · rw [spawnsOf_main_ok argv a _ h]
    rfl

/-- C2 witness: default flags, child exiting 7. -/
theorem nonzero_child_exit_propagated_witness :
    errsOf (main [] (ChildBehavior.exits 7)) =
      ["Seed failed (exit " ++ toString (7 : Int) ++ ")."] ∧
    (∃ s t, "Seed failed (exit " ++ toString (7 : Int) ++ ")." = s ++ (toString (7 : Int) ++ t)) ∧
    (main [] (ChildBehavior.exits 7)).exitCode = 7 ∧
    (spawnsOf (main [] (ChildBehavior.exits 7))).length = 1 :=
  nonzero_child_exit_propagated [] defaultArgs 7 (by decide) (by decide)

/-- C3: for every successful parse, the command line is exactly the fixed
tool name `npx`, the fixed subcommand sequence `convex run`, the fixed
action identifier `internal.reminders.seedRemindersTestData`, and the
serialized payload as the final positional argument; and the run prints the
assembled command line to stdout before invoking the child. -/
theorem cmdline_echoed_then_executed (argv : List String) (a : Args)
    (child : ChildBehavior) (h : parseArgs argv = ParseOutcome.ok a) :
    (main argv child).events.take 2 =
      [Event.out ("Running: " ++ String.intercalate " "
         ["npx", "convex", "run", "internal.reminders.seedRemindersTestData",
          dumpsPayload a]),
       Event.spawn
         ["npx", "convex", "run", "internal.reminders.seedRemindersTestData",
          dumpsPayload a]] := by
  rw [main_ok_events argv a child h]
  rfl

/-- C3 witness: default flags. -/
theorem cmdline_echoed_then_executed_witness :
    (main [] (ChildBehavior.exits 0)).events.take 2 =
      [Event.out ("Running: " ++ String.intercalate " "
         ["npx", "convex", "run", "internal.reminders.seedRemindersTestData",
          dumpsPayload defaultArgs]),
       Event.spawn
         ["npx", "convex", "run", "internal.reminders.seedRemindersTestData",
          dumpsPayload defaultArgs]] :=
  cmdline_echoed_then_executed [] defaultArgs (ChildBehavior.exits 0) (by decide)

/-- C6: when the external tool cannot be launched, the `FileNotFoundError`
escapes the `except subprocess.CalledProcessError` clause, so the program
terminates with CPython's implementation-defined exit status 1 (non-zero and
not a child exit code — no child ran) and a human-readable traceback line on
stderr. -/
theorem launch_failure_invocation_error (argv : List String) (a : Args)
    (h : parseArgs argv = ParseOutcome.ok a) :
    (main argv ChildBehavior.launchFailure).exitCode = 1 ∧
    (main argv ChildBehavior.launchFailure).exitCode ≠ 0 ∧
    errsOf (main argv ChildBehavior.launchFailure) = [fnfTraceback] := by
  refine ⟨?_, ?_, ?_⟩
  · rw [main_ok_exitCode argv a _ h]
  · rw [main_ok_exitCode argv a _ h]
    decide
  · rw [errsOf, main_ok_events argv a _ h]
    rfl

/-- C6 witness: default flags, unlaunchable tool. -/
theorem launch_failure_invocation_error_witness :
    (main [] ChildBehavior.launchFailure).exitCode = 1 ∧
    (main [] ChildBehavior.launchFailure).exitCode ≠ 0 ∧
    errsOf (main [] ChildBehavior.launchFailure) = [fnfTraceback] :=
  launch_failure_invocation_error [] defaultArgs (by decide)

/-- C7: when the parse succeeds and the child exits 0, the program exits 0
and writes nothing to stderr. -/
theorem zero_child_exit_clean (argv : List String) (a : Args)
    (h : parseArgs argv = ParseOutcome.ok a) :
    (main argv (ChildBehavior.exits 0)).exitCode = 0 ∧
    errsOf (main argv (ChildBehavior.exits 0)) = [] := by
  refine ⟨?_, ?_⟩
  · rw [main_ok_exitCode argv a _ h]
  · rw [errsOf, main_ok_events argv a _ h]
    rfl

/-- C7 witness: default flags, child exiting 0. -/
theorem zero_child_exit_clean_witness :
    (main [] (ChildBehavior.exits 0)).exitCode = 0 ∧
    errsOf (main [] (ChildBehavior.exits 0)) = [] :=
  zero_child_exit_clean [] defaultArgs (by decide)

/-- Helper: a `--count-1h=value` token classifies as that flag with that
explicit value, whatever the value string is. -/
theorem classify_count1h_val (v : String) :
    classify ("--count-1h=" ++ v) = TokenClass.withValue Flag.count1h v := rfl

/-- Helper: a `--count-24h=value` token classifies as that flag with that
explicit value. -/
theorem classify_count24h_val (v : String) :
    classify ("--count-24h=" ++ v) = TokenClass.withValue Flag.count24h v := rfl

/-- Helper: a `--minutes-1h=value` token classifies as that flag with that
explicit value. -/
theorem classify_minutes1h_val (v : String) :
    classify ("--minutes-1h=" ++ v) = TokenClass.withValue Flag.minutes1h v := rfl

/-- Helper: a `--minutes-24h=value` token classifies as that flag with that
explicit value. -/
theorem classify_minutes24h_val (v : String) :
    classify ("--minutes-24h=" ++ v) = TokenClass.withValue Flag.minutes24h v := rfl

/-- Helper: a `--team-name=value` token classifies as that flag with that
explicit value. -/
theorem classify_teamName_val (v : String) :
    classify ("--team-name=" ++ v) = TokenClass.withValue Flag.teamName v := rfl

/-- Helper: parsing a lone `--count-1h=value` with an integer-parsing value
succeeds and binds only that field. -/
theorem parseArgs_count1h_val (v : String) (n : Int) (h : pyInt v = some n) :
    parseArgs ["--count-1h=" ++ v] = ParseOutcome.ok { defaultArgs with count_1h := n } := by
  simp [parseArgs, parseTokens, classify_count1h_val, setFlag, h]

/-- Helper: parsing a lone `--count-24h=value` with an integer-parsing value
succeeds and binds only that field. -/
theorem parseArgs_count24h_val (v : String) (n : Int) (h : pyInt v = some n) :
    parseArgs ["--count-24h=" ++ v] = ParseOutcome.ok { defaultArgs with count_24h := n } := by
  simp [parseArgs, parseTokens, classify_count24h_val, setFlag, h]

/-- Helper: parsing a lone `--minutes-1h=value` with an integer-parsing
value succeeds and binds only that field. -/
theorem parseArgs_minutes1h_val (v : String) (n : Int) (h : pyInt v = some n) :
    parseArgs ["--minutes-1h=" ++ v] = ParseOutcome.ok { defaultArgs with minutes_1h := n } := by
  simp [parseArgs, parseTokens, classify_minutes1h_val, setFlag, h]

/-- Helper: parsing a lone `--minutes-24h=value` with an integer-parsing
value succeeds and binds only that field. -/
theorem parseArgs_minutes24h_val (v : String) (n : Int) (h : pyInt v = some n) :
    parseArgs ["--minutes-24h=" ++ v] = ParseOutcome.ok { defaultArgs with minutes_24h := n } := by
  simp [parseArgs, parseTokens, classify_minutes24h_val, setFlag, h]

/-- Helper: parsing a lone `--team-name=value` succeeds for every value and
binds only that field. -/
theorem parseArgs_teamName_val (v : String) :
    parseArgs ["--team-name=" ++ v] = ParseOutcome.ok { defaultArgs with team_name := v } := by
  simp [parseArgs, parseTokens, classify_teamName_val, setFlag]

/-- C4: the no-flag invocation spawns the child with exactly the default
payload, whose serialization is the literal JSON object with values 2, 2,
65, 1450, "Seed Team"; and each flag, when supplied alone, binds only its
own field while every unsupplied flag keeps its default independently. -/
theorem default_invocation_payload :
    (∀ child, spawnsOf (main [] child) =
      [["npx", "convex", "run", "internal.reminders.seedRemindersTestData",
        "\x7b\"count1h\": 2, \"count24h\": 2, \"minutesFromNowFor1h\": 65, \"minutesFromNowFor24h\": 1450, \"reuseTeamName\": \"Seed Team\"\x7d"]]) ∧
    parseArgs [] = ParseOutcome.ok defaultArgs ∧
    (∀ v n, pyInt v = some n →
      parseArgs ["--count-1h=" ++ v] = ParseOutcome.ok { defaultArgs with count_1h := n }) ∧
    (∀ v n, pyInt v = some n →
      parseArgs ["--count-24h=" ++ v] = ParseOutcome.ok { defaultArgs with count_24h := n }) ∧
    (∀ v n, pyInt v = some n →
      parseArgs ["--minutes-1h=" ++ v] = ParseOutcome.ok { defaultArgs with minutes_1h := n }) ∧
    (∀ v n, pyInt v = some n →
      parseArgs ["--minutes-24h=" ++ v] = ParseOutcome.ok { defaultArgs with minutes_24h := n }) ∧
    (∀ v, parseArgs ["--team-name=" ++ v] = ParseOutcome.ok { defaultArgs with team_name := v }) := by
  refine ⟨?_, by decide, parseArgs_count1h_val, parseArgs_count24h_val,
    parseArgs_minutes1h_val, parseArgs_minutes24h_val, parseArgs_teamName_val⟩
  intro child
  rw [spawnsOf_main_ok [] defaultArgs child (by decide)]
  decide

/-- C4 witness: the independence conjunct applied at `--count-1h=7`. -/
theorem default_invocation_payload_witness :
    parseArgs ["--count-1h=" ++ "7"] = ParseOutcome.ok { defaultArgs with count_1h := 7 } :=
  default_invocation_payload.2.2.1 "7" 7 (by decide)

/-- C10: no range validation happens on the integer flags: every value that
Python's `int` accepts — zero and negative included — is bound by the parse
for each of the four integer flags, and lands in the payload unchanged. -/
theorem no_range_validation (v : String) (n : Int) (h : pyInt v = some n) :
    parseArgs ["--count-1h=" ++ v] = ParseOutcome.ok { defaultArgs with count_1h := n } ∧
    parseArgs ["--count-24h=" ++ v] = ParseOutcome.ok { defaultArgs with count_24h := n } ∧
    parseArgs ["--minutes-1h=" ++ v] = ParseOutcome.ok { defaultArgs with minutes_1h := n } ∧
    parseArgs ["--minutes-24h=" ++ v] = ParseOutcome.ok { defaultArgs with minutes_24h := n } ∧
    payload { defaultArgs with count_1h := n } =
      [("count1h", JVal.int n), ("count24h", JVal.int 2),
       ("minutesFromNowFor1h", JVal.int 65), ("minutesFromNowFor24h", JVal.int 1450),
       ("reuseTeamName", JVal.str "Seed Team")] :=
  ⟨parseArgs_count1h_val v n h, parseArgs_count24h_val v n h,
   parseArgs_minutes1h_val v n h, parseArgs_minutes24h_val v n h, rfl⟩

/-- C10 witness: the negative value `-5` and the value `0` both parse and
bind. -/
theorem no_range_validation_witness :
    (parseArgs ["--count-1h=" ++ "-5"] = ParseOutcome.ok { defaultArgs with count_1h := -5 } ∧
     parseArgs ["--count-24h=" ++ "-5"] = ParseOutcome.ok { defaultArgs with count_24h := -5 } ∧
     parseArgs ["--minutes-1h=" ++ "-5"] = ParseOutcome.ok { defaultArgs with minutes_1h := -5 } ∧
     parseArgs ["--minutes-24h=" ++ "-5"] = ParseOutcome.ok { defaultArgs with minutes_24h := -5 } ∧
     payload { defaultArgs with count_1h := -5 } =
       [("count1h", JVal.int (-5)), ("count24h", JVal.int 2),
        ("minutesFromNowFor1h", JVal.int 65), ("minutesFromNowFor24h", JVal.int 1450),
        ("reuseTeamName", JVal.str "Seed Team")]) ∧
    (parseArgs ["--count-1h=" ++ "0"] = ParseOutcome.ok { defaultArgs with count_1h := 0 } ∧
     parseArgs ["--count-24h=" ++ "0"] = ParseOutcome.ok { defaultArgs with count_24h := 0 } ∧
     parseArgs ["--minutes-1h=" ++ "0"] = ParseOutcome.ok { defaultArgs with minutes_1h := 0 } ∧
     parseArgs ["--minutes-24h=" ++ "0"] = ParseOutcome.ok { defaultArgs with minutes_24h := 0 } ∧
     payload { defaultArgs with count_1h := 0 } =
       [("count1h", JVal.int 0), ("count24h", JVal.int 2),
        ("minutesFromNowFor1h", JVal.int 65), ("minutesFromNowFor24h", JVal.int 1450),
        ("reuseTeamName", JVal.str "Seed Team")]) :=
  ⟨no_range_validation "-5" (-5) (by decide), no_range_validation "0" 0 (by decide)⟩

/-- C9: for every successful parse the child invocation is a single argument
vector whose final element is the JSON rendering of an object with exactly
the five payload keys and no others, and the team name — whatever characters
it holds — sits JSON-escaped inside that one argument. -/
theorem json_argument_vector (argv : List String) (a : Args) (child : ChildBehavior)
    (h : parseArgs argv = ParseOutcome.ok a) :
    spawnsOf (main argv child) =
      [["npx", "convex", "run", "internal.reminders.seedRemindersTestData",
        renderJObj (payload a)]] ∧
    (payload a).map Prod.fst =
      ["count1h", "count24h", "minutesFromNowFor1h", "minutesFromNowFor24h",
       "reuseTeamName"] ∧
    (∃ front, renderJObj (payload a) = front ++ (jsonString a.team_name ++ "\x7d")) := by
  refine ⟨spawnsOf_main_ok argv a child h, rfl, ?_⟩
  refine ⟨"\x7b" ++ (jsonString "count1h" ++ (": " ++ (toString a.count_1h ++
    (", " ++ (jsonString "count24h" ++ (": " ++ (toString a.count_24h ++
    (", " ++ (jsonString "minutesFromNowFor1h" ++ (": " ++ (toString a.minutes_1h ++
    (", " ++ (jsonString "minutesFromNowFor24h" ++ (": " ++ (toString a.minutes_24h ++
    (", " ++ (jsonString "reuseTeamName" ++ ": "))))))))))))))))), ?_⟩
  simp [renderJObj, renderFields, renderJVal, payload, String.append_assoc]

/-- C9 witness: a concrete parse with a team name holding spaces, a quote
and a backslash. -/
theorem json_argument_vector_witness :
    spawnsOf (main ["--team-name=A \"B\" \\C"] (ChildBehavior.exits 0)) =
      [["npx", "convex", "run", "internal.reminders.seedRemindersTestData",
        renderJObj (payload { defaultArgs with team_name := "A \"B\" \\C" })]] ∧
    (payload { defaultArgs with team_name := "A \"B\" \\C" }).map Prod.fst =
      ["count1h", "count24h", "minutesFromNowFor1h", "minutesFromNowFor24h",
       "reuseTeamName"] ∧
    (∃ front, renderJObj (payload { defaultArgs with team_name := "A \"B\" \\C" }) =
      front ++ (jsonString "A \"B\" \\C" ++ "\x7d")) :=
  json_argument_vector ["--team-name=A \"B\" \\C"]
    { defaultArgs with team_name := "A \"B\" \\C" } (ChildBehavior.exits 0) (by decide)

/-- C8 counterexample: the claim fails as stated — an invocation whose
argument parse fails (here `--count-1h x`) spawns zero child processes, not
exactly one. -/
theorem failed_parse_spawns_nothing :
    (spawnsOf (main ["--count-1h", "x"] (ChildBehavior.exits 0))).length = 0 := by
  decide

/-- C8 (amended): every invocation spawns at most one child process and
never a second; when the argument parse succeeds, exactly one child is
invoked with the assembled command, and the program blocks on it — its own
exit status is a function of the completed child's return code. -/
theorem at_most_one_synchronous_child (argv : List String) (child : ChildBehavior) :
    (spawnsOf (main argv child)).length ≤ 1 ∧
    (∀ a, parseArgs argv = ParseOutcome.ok a →
      spawnsOf (main argv child) = [cmd (dumpsPayload a)] ∧
      ∀ n : Int, (main argv (ChildBehavior.exits n)).exitCode = n) := by
  constructor
  · cases hp : parseArgs argv with
    | ok a =>
      rw [spawnsOf_main_ok argv a child hp]
      exact Nat.le_refl 1
    | help => simp [main, hp, spawnsOf, List.filterMap]
    | usageError m => simp [main, hp, spawnsOf, List.filterMap]
  · intro a hp
    refine ⟨spawnsOf_main_ok argv a child hp, fun n => ?_⟩
    rw [main_ok_exitCode argv a _ hp]

/-- C8 witness: default flags, with the child exiting 0 and 7. -/
theorem at_most_one_synchronous_child_witness :
    (spawnsOf (main [] (ChildBehavior.exits 0))).length ≤ 1 ∧
    spawnsOf (main [] (ChildBehavior.exits 0)) = [cmd (dumpsPayload defaultArgs)] ∧
    (main [] (ChildBehavior.exits 7)).exitCode = 7 :=
  ⟨(at_most_one_synchronous_child [] (ChildBehavior.exits 0)).1,
   ((at_most_one_synchronous_child [] (ChildBehavior.exits 0)).2 defaultArgs (by decide)).1,
   ((at_most_one_synchronous_child [] (ChildBehavior.exits 0)).2 defaultArgs (by decide)).2 7⟩

end SeedReminders
